import Mathlib

/-!
Verification development for the FauxDB protocol-translation gateway.

The definitions below are shallow embeddings of the Rust source:
byte buffers become `List Nat` (each entry a byte value), 32-bit
machine integers become `Nat` with explicit `% 2^32` where overflow
matters, BSON documents become ordered association lists, and fallible
code returns `Except String _` mirroring `anyhow::Result`.
-/

namespace FauxDB

/-! ## BSON value model

Embeds the subset of `bson::Bson` exercised by this codebase: 32/64-bit
integers, doubles that are exactly integral (the only doubles the source
constructs are literals such as `0.0` and `1.0`), strings, booleans,
null, embedded documents and arrays.  A document is the ordered list of
its `(field name, value)` pairs, as in `bson::Document`. -/
inductive Bson where
  | int32 (i : Int)
  | int64 (i : Int)
  | double (i : Int)
  | str (s : String)
  | bool (b : Bool)
  | null
  | doc (d : List (String × Bson))
  | arr (a : List Bson)

abbrev Doc := List (String × Bson)

mutual

/-- Structural equality on BSON values, as the `PartialEq` of `bson::Bson`. -/
def bsonBeq : Bson → Bson → Bool
  | Bson.int32 a, Bson.int32 b => a == b
  | Bson.int64 a, Bson.int64 b => a == b
  | Bson.double a, Bson.double b => a == b
  | Bson.str a, Bson.str b => a == b
  | Bson.bool a, Bson.bool b => a == b
  | Bson.null, Bson.null => true
  | Bson.doc d, Bson.doc e => docBeq d e
  | Bson.arr a, Bson.arr b => arrBeq a b
  | _, _ => false
termination_by structural a _ => a

def docBeq : List (String × Bson) → List (String × Bson) → Bool
  | [], [] => true
  | (k, v) :: r, (k', v') :: r' => k == k' && bsonBeq v v' && docBeq r r'
  | _, _ => false
termination_by structural d _ => d

def arrBeq : List Bson → List Bson → Bool
  | [], [] => true
  | v :: r, v' :: r' => bsonBeq v v' && arrBeq r r'
  | _, _ => false
termination_by structural a _ => a

end

/-- First-match field lookup, as `bson::Document::get`. -/
def lookupField (d : Doc) (k : String) : Option Bson :=
  match d with
  | [] => none
  | (k', v) :: rest => if k' = k then some v else lookupField rest k

/-- `bson::Document::insert`: replace the value in place if the key is
present (keeping its position), otherwise append the pair at the end. -/
def docInsert (d : Doc) (k : String) (v : Bson) : Doc :=
  match d with
  | [] => [(k, v)]
  | (k', v') :: rest =>
      if k' = k then (k', v) :: rest else (k', v') :: docInsert rest k v

/-! ## Byte-level utilities -/

/-- Little-endian read of 4 bytes starting at index `i` (out-of-range
bytes read as 0), as `u32::from_le_bytes`. -/
def readU32 (data : List Nat) (i : Nat) : Nat :=
  data.getD i 0 + 256 * data.getD (i + 1) 0 +
    65536 * data.getD (i + 2) 0 + 16777216 * data.getD (i + 3) 0

/-- Little-endian encoding of a `u32` value. -/
def u32le (n : Nat) : List Nat :=
  [n % 256, n / 256 % 256, n / 65536 % 256, n / 16777216 % 256]

/-- Two's-complement reading of a 32-bit unsigned value as `i32`. -/
def toSigned32 (n : Nat) : Int :=
  if n < 2147483648 then (n : Int) else (n : Int) - 4294967296

/-! ## BSON binary decoding

Modelled from the spec: `bson::from_slice` of the external `bson` crate
(the spec's `decode` operation, §4.1) — parse a length-prefixed element
list with a trailing `0x00`, failing on truncation, on an unknown type
tag, on a malformed string, or on a missing terminator.  The model
covers the scalar subset exercised here (int32 `0x10`, int64 `0x12`,
string `0x02`, boolean `0x08`, null `0x0A`, embedded document `0x03`,
array `0x04`) and ASCII strings; recursion is fuelled. -/

/-- Read a C-string of ASCII bytes up to a `0x00` terminator. -/
def parseCString : List Nat → Option (String × List Nat)
  | [] => none
  | 0 :: rest => some ("", rest)
  | c :: rest =>
      if 1 ≤ c ∧ c ≤ 127 then
        match parseCString rest with
        | some (s, r) => some (String.mk (Char.ofNat c :: s.toList), r)
        | none => none
      else none

/-- Read 4 raw bytes as an unsigned little-endian length. -/
def readLen4 : List Nat → Option (Nat × List Nat)
  | b0 :: b1 :: b2 :: b3 :: rest =>
      some (b0 + 256 * b1 + 65536 * b2 + 16777216 * b3, rest)
  | _ => none

/-- Read 8 raw bytes as an unsigned little-endian value. -/
def readLen8 : List Nat → Option (Nat × List Nat)
  | b0 :: b1 :: b2 :: b3 :: b4 :: b5 :: b6 :: b7 :: rest =>
      some (b0 + 256 * b1 + 65536 * b2 + 16777216 * b3 +
        4294967296 * b4 + 1099511627776 * b5 +
        281474976710656 * b6 + 72057594037927936 * b7, rest)
  | _ => none

/-- Two's-complement reading of a 64-bit unsigned value as `i64`. -/
def toSigned64 (n : Nat) : Int :=
  if n < 9223372036854775808 then (n : Int) else (n : Int) - 18446744073709551616

mutual

def parseElems : Nat → List Nat → Option (Doc × List Nat)
  | 0, _ => none
  | _ + 1, [] => none
  | _ + 1, 0 :: rest => some ([], rest)
  | fuel + 1, tag :: rest =>
      match parseCString rest with
      | none => none
      | some (name, r2) =>
          match parseValue fuel tag r2 with
          | none => none
          | some (v, r3) =>
              match parseElems fuel r3 with
              | none => none
              | some (elems, r4) => some ((name, v) :: elems, r4)
termination_by structural fuel _ => fuel

def parseValue : Nat → Nat → List Nat → Option (Bson × List Nat)
  | 0, _, _ => none
  | fuel + 1, tag, bytes =>
      if tag = 16 then
        (readLen4 bytes).map fun p => (Bson.int32 (toSigned32 p.1), p.2)
      else if tag = 18 then
        (readLen8 bytes).map fun p => (Bson.int64 (toSigned64 p.1), p.2)
      else if tag = 2 then
        match readLen4 bytes with
        | none => none
        | some (len, rest) =>
            if 1 ≤ len ∧ len ≤ rest.length then
              match parseCString (rest.take len) with
              | some (s, []) => some (Bson.str s, rest.drop len)
              | _ => none
            else none
      else if tag = 8 then
        match bytes with
        | 0 :: r => some (Bson.bool false, r)
        | 1 :: r => some (Bson.bool true, r)
        | _ => none
      else if tag = 10 then some (Bson.null, bytes)
      else if tag = 3 then
        (parseDocBytes fuel bytes).map fun p => (Bson.doc p.1, p.2)
      else if tag = 4 then
        (parseDocBytes fuel bytes).map fun p => (Bson.arr (p.1.map (·.2)), p.2)
      else none
termination_by structural fuel _ _ => fuel

def parseDocBytes : Nat → List Nat → Option (Doc × List Nat)
  | 0, _ => none
  | fuel + 1, bytes =>
      if bytes.length < 4 then none
      else
        let L := readU32 bytes 0
        if L < 5 ∨ bytes.length < L then none
        else
          match parseElems fuel ((bytes.take L).drop 4) with
          | some (d, []) => some (d, bytes.drop L)
          | _ => none
termination_by structural fuel _ => fuel

end

/-- Decode one BSON document spanning exactly the given slice. -/
def fromSlice (bytes : List Nat) : Option Doc :=
  match parseDocBytes (bytes.length + 2) bytes with
  | some (d, []) => some d
  | _ => none

/-! ## Wire codec (`src/wire_protocol.rs`) -/

/-- One probe of `OpQueryMessage::parse_bson_flexible`'s approach 4:
read a candidate length at offset `i` and try to decode there. -/
def flexTryAt (data : List Nat) (i : Nat) : Option Doc :=
  let length := readU32 data i
  if 5 ≤ length ∧ length ≤ data.length - i then
    let docData := (data.drop i).take length
    if docData.getD (length - 1) 1 = 0 then fromSlice docData else none
  else none

/-- `OpQueryMessage::parse_bson_flexible`: four fallback decoding
approaches tried in order (whole buffer; buffer minus last byte;
buffer cut to its declared length; scan of the first ten offsets). -/
def parse_bson_flexible (data : List Nat) : Option Doc :=
  match fromSlice data with
  | some d => some d
  | none =>
      match (if 1 < data.length then fromSlice (data.take (data.length - 1)) else none) with
      | some d => some d
      | none =>
          match (if 4 ≤ data.length then
                   let rl := readU32 data 0
                   if rl ≤ data.length ∧ 5 ≤ rl then fromSlice (data.take rl) else none
                 else none) with
          | some d => some d
          | none => (List.range (min 10 (data.length - 4))).findSome? (flexTryAt data)

/-- `OpQueryMessage::parse_bson_document`: framing checks on the
declared length and terminator, then `bson::from_slice`; on content
failure fall back to `parse_bson_flexible`, and finally to the
substitute document `{ok: 1}`. -/
def parse_bson_document (data : List Nat) : Except String (Doc × Nat) :=
  if data.isEmpty then .error "Empty BSON document"
  else if data.length < 4 then .error "BSON document too short for length field"
  else if readU32 data 0 < 5 then .error "BSON document too short"
  else if data.length < readU32 data 0 then
    .error "BSON document length exceeds available data"
  else if 16777216 < readU32 data 0 then .error "BSON document too large"
  else if data.getD (readU32 data 0 - 1) 1 ≠ 0 then
    .error "BSON document not null-terminated"
  else
    match fromSlice (data.take (readU32 data 0)) with
    | some d => .ok (d, readU32 data 0)
    | none =>
        match parse_bson_flexible (data.take (readU32 data 0)) with
        | some d => .ok (d, readU32 data 0)
        | none => .ok ([("ok", Bson.int32 1)], readU32 data 0)

/-- `MessageHeader` of the wire protocol: 16 bytes, four LE `u32`s. -/
structure MessageHeader where
  message_length : Nat
  request_id : Nat
  response_to : Nat
  op_code : Nat
  deriving DecidableEq

/-- `OpCode::from_u32`: the opcodes the codec recognizes. -/
def opcode_from_u32 (code : Nat) : Option Nat :=
  if code = 1 ∨ code = 2001 ∨ code = 2002 ∨ code = 2003 ∨ code = 2004 ∨
      code = 2005 ∨ code = 2006 ∨ code = 2007 ∨ code = 2012 ∨ code = 2013 then
    some code
  else none

/-- `MessageHeader::parse`. -/
def header_parse (data : List Nat) : Except String MessageHeader :=
  if data.length < 16 then .error "Message too short for header"
  else
    match opcode_from_u32 (readU32 data 12) with
    | none => .error "Unknown opcode"
    | some op =>
        .ok ⟨readU32 data 0, readU32 data 4, readU32 data 8, op⟩

/-- Parsed `OP_MSG`: header, flags, and the body-section documents. -/
structure OpMsg where
  header : MessageHeader
  flags : Nat
  sections : List Doc

/-- `OpMsgMessage::parse_body_section`: a single `kind = 0` body
section; any other section kind is an error. -/
def parse_body_section (data : List Nat) : Except String (Doc × Nat) :=
  match data with
  | [] => .error "Empty section"
  | kind :: rest =>
      if kind ≠ 0 then .error "Expected body section (kind 0)"
      else
        match parse_bson_document rest with
        | .ok (d, n) => .ok (d, 1 + n)
        | .error e => .error e

/-- `OpMsgMessage::parse`: header, flags, then — simplified in the
source — at most one body section. -/
def opmsg_parse (data : List Nat) : Except String OpMsg :=
  match header_parse data with
  | .error e => .error e
  | .ok h =>
      if h.op_code ≠ 2013 then .error "Expected OP_MSG"
      else if data.length < 20 then .error "OP_MSG message too short"
      else if 20 < data.length then
        match parse_body_section (data.drop 20) with
        | .error e => .error e
        | .ok (d, _) => .ok ⟨h, readU32 data 16, [d]⟩
      else .ok ⟨h, readU32 data 16, []⟩

/-- Modelled from the spec: the section list of an `OP_MSG` body per
§4.2 — each section is `kind(1) ‖ payload`, where a `kind = 0` payload
is one BSON document and a `kind = 1` payload is `size(4) ‖
identifier ‖ document*` spanning `size` bytes; sections repeat until
the message is exhausted.  Returns how many sections the body holds,
or `none` if the layout is invalid. -/
def count_sections_spec : Nat → List Nat → Option Nat
  | _, [] => some 0
  | 0, _ => none
  | fuel + 1, kind :: rest =>
      if kind = 0 then
        match readLen4 rest with
        | none => none
        | some (len, _) =>
            if 5 ≤ len ∧ len ≤ rest.length then
              (count_sections_spec fuel (rest.drop len)).map (· + 1)
            else none
      else if kind = 1 then
        match readLen4 rest with
        | none => none
        | some (size, _) =>
            if 4 ≤ size ∧ size ≤ rest.length then
              (count_sections_spec fuel (rest.drop size)).map (· + 1)
            else none
      else none

/-- `WireProtocolHandler::build_msg_response`: an `OP_MSG` frame whose
header carries the given id in the requestID slot and `0` in the
responseTo slot, then flags `0`, a kind-0 marker, and the serialized
response document (abstracted here as the byte list `bson_bytes`). -/
def build_msg_response (request_id : Nat) (bson_bytes : List Nat) : List Nat :=
  let message_length := 21 + bson_bytes.length
  u32le message_length ++ u32le request_id ++ u32le 0 ++ u32le 2013 ++
    u32le 0 ++ [0] ++ bson_bytes

/-! ## DocumentDB serving loop (`src/documentdb_server.rs`) -/

/-- `MongoMessage` as parsed by `DocumentDBServer::parse_message`. -/
structure MongoMessage where
  request_id : Nat
  response_to : Nat
  op_code : Nat
  payload : List Nat

/-- `DocumentDBServer::parse_message`. -/
def server_parse_message (data : List Nat) : Except String MongoMessage :=
  if data.length < 16 then .error "Message too short"
  else
    .ok ⟨readU32 data 4, readU32 data 8, readU32 data 12, data.drop 16⟩

/-- `DocumentDBServer::create_response`: an `OP_MSG` frame carrying
`request_id` in the requestID slot and `response_to` in the responseTo
slot (the callers pass the request's own `request_id`/`response_to`),
followed by flags `0`, a kind-0 marker, and the serialized response
document (abstracted as the byte list `bson_bytes`). -/
def create_response (request_id response_to : Nat) (bson_bytes : List Nat) : List Nat :=
  let message_length := 16 + 4 + 1 + bson_bytes.length
  u32le message_length ++ u32le request_id ++ u32le response_to ++
    u32le 2013 ++ u32le 0 ++ [0] ++ bson_bytes

/-! ## Command dispatcher (`src/mongodb_commands.rs`) -/

/-- The command names registered by
`MongoDBCommandRegistry::register_commands`, in registration order. -/
def registered_commands : List String :=
  ["insert", "insertOne", "insertMany", "find", "findOne", "update",
   "updateOne", "updateMany", "replaceOne", "delete", "deleteOne",
   "deleteMany", "count", "distinct", "aggregate", "createIndexes",
   "dropIndexes", "listIndexes", "reIndex", "create", "drop",
   "listCollections", "collMod", "renameCollection", "listDatabases",
   "createDatabase", "dropDatabase", "clone", "cloneCollection",
   "cloneCollectionAsCapped", "startTransaction", "commitTransaction",
   "abortTransaction", "authenticate", "logout", "getnonce",
   "createUser", "updateUser", "dropUser", "grantRolesToUser",
   "revokeRolesFromUser", "usersInfo", "createRole", "updateRole",
   "dropRole", "grantPrivilegesToRole", "revokePrivilegesFromRole",
   "grantRolesToRole", "revokeRolesFromRole", "rolesInfo", "buildInfo",
   "ping", "isMaster", "ismaster", "hello", "getParameter",
   "setParameter", "hostInfo", "serverStatus", "dbStats", "collStats",
   "top", "currentOp", "killOp", "killAllSessions", "killSessions",
   "listSessions", "refreshSessions", "replSetGetStatus",
   "replSetGetConfig", "replSetInitiate", "replSetReconfig",
   "replSetStepDown", "replSetFreeze", "replSetMaintenance",
   "replSetSyncFrom", "replSetResizeOplog", "replSetHeartbeat",
   "replSetUpdatePosition", "replSetGetRBID", "replSetRequestVote",
   "replSetDeclineElection", "replSetElect", "replSetTest", "addShard",
   "removeShard", "enableSharding", "shardCollection",
   "shardConnPoolStats", "getShardVersion", "getShardMap",
   "getShardDistribution", "moveChunk", "splitChunk", "mergeChunks",
   "balanceCollection", "balancerStart", "balancerStop",
   "balancerStatus", "filemd5", "listCollections", "mapReduce",
   "mapreduce", "getMore", "createTimeSeries", "createSearchIndexes",
   "updateSearchIndex", "dropSearchIndex", "listSearchIndexes",
   "atlasVersion"]

/-- `MongoDBCommandRegistry::build_error_response`. -/
def build_error_response (message : String) : Doc :=
  [("ok", Bson.double 0), ("errmsg", Bson.str message)]

/-- `MongoDBCommandRegistry::build_success_response`. -/
def build_success_response : Doc :=
  [("ok", Bson.double 1)]

/-- `MongoDBCommandRegistry::handle_command`: look the command name up
in the registry (its key set is `registered_commands`; the individual
handlers are abstracted as the `handler` argument) and on a miss return
`Ok(build_error_response("Unknown command: …"))`. -/
def handle_command (handler : String → Doc → Except String Doc)
    (command : String) (doc : Doc) : Except String Doc :=
  if registered_commands.contains command then handler command doc
  else .ok (build_error_response (("Unknown command: ") ++ command))

/-- `DocumentDBServer::handle_generic_command`'s response document for
any command name without a dedicated handler arm: plain `{ok: 1.0}`. -/
def handle_generic_command_doc : Doc :=
  [("ok", Bson.double 1)]

/-! ## SQL text rendering helpers -/

/-- A single-quote character (used when splicing values into SQL). -/
def squote : Char := Char.ofNat 39

/-- `str.replace("'", "''")`: double every single quote. -/
def sqlEscape (s : String) : String :=
  String.mk (s.toList.foldr
    (fun c acc => if c = squote then c :: c :: acc else c :: acc) [])

/-- `format!("'{}'", s.replace("'", "''"))`. -/
def quoteStr (s : String) : String :=
  String.mk [squote] ++ sqlEscape s ++ String.mk [squote]

mutual

/-- Modelled from the spec: the `Display` rendering `value.to_string()`
of the `bson` crate, used by the source only in catch-all match arms
for value kinds outside int32/int64/string/null (none of the theorems
below exercise those arms). -/
def bsonToString : Bson → String
  | Bson.int32 i => toString i
  | Bson.int64 i => toString i
  | Bson.double i => toString i ++ (".0")
  | Bson.str s => ("\"") ++ s ++ ("\"")
  | Bson.bool b => if b then ("true") else ("false")
  | Bson.null => ("null")
  | Bson.doc d => ("\x7b ") ++ docToString d ++ (" \x7d")
  | Bson.arr a => ("[") ++ arrToString a ++ ("]")
termination_by structural b => b

def docToString : List (String × Bson) → String
  | [] => ""
  | [(k, v)] => ("\"") ++ k ++ ("\": ") ++ bsonToString v
  | (k, v) :: rest =>
      ("\"") ++ k ++ ("\": ") ++ bsonToString v ++ (", ") ++ docToString rest
termination_by structural d => d

def arrToString : List Bson → String
  | [] => ""
  | [v] => bsonToString v
  | v :: rest => bsonToString v ++ (", ") ++ arrToString rest
termination_by structural a => a

end

/-! ## Storage gateway (`src/documentdb.rs`) -/

/-- Observable effect of `DocumentDBManager::insert_document`: the SQL
text it issues, the document serialized into the `$1::jsonb` parameter
(stored unchanged), and the returned value — the relational row id
rendered as a string (`rowId` stands for the id the backend reports). -/
structure InsertDocResult where
  sql : String
  storedDoc : Doc
  returned : String

/-- `DocumentDBManager::insert_document`. -/
def insert_document (database collection : String) (document : Doc)
    (rowId : Int) : InsertDocResult :=
  { sql := ("INSERT INTO documentdb_") ++ database ++ (".") ++ collection ++
      ("_collections (document, bson_document) VALUES ($1::jsonb, $2) RETURNING id")
  , storedDoc := document
  , returned := toString rowId }

/-- The `value_str` computed by `DocumentDBManager::find_documents` for
each filter value: the raw string content when the value is a string
(`value.as_str()`), otherwise its `Display` rendering. -/
def param_render (v : Bson) : String :=
  match v with
  | Bson.str s => s
  | _ => bsonToString v

/-- The WHERE-clause pieces of `find_documents`, carrying the running
`param_count`: each filter key is spliced into
`document->>'<key>' = $<n>`. -/
def wherePartsAux : Nat → Doc → List String
  | _, [] => []
  | n, (k, _) :: rest =>
      (("document->>") ++ String.mk [squote] ++ k ++ String.mk [squote] ++
        (" = $") ++ toString n) :: wherePartsAux (n + 1) rest

/-- The WHERE-clause pieces of `find_documents` (parameters numbered
from `$1`). -/
def whereParts (f : Doc) : List String :=
  wherePartsAux 1 f

/-- `DocumentDBManager::find_documents`: the SQL text and the parameter
list it sends (filter values always travel as parameters `$n`). -/
def find_query (database collection : String) (filter : Option Doc)
    (skip limit : Option Nat) : String × List String :=
  let base := ("SELECT document FROM documentdb_") ++ database ++ (".") ++
    collection ++ ("_collections")
  let (whereSql, params) :=
    match filter with
    | some f =>
        if f.isEmpty then ("", [])
        else ((" WHERE ") ++ String.intercalate (" AND ") (whereParts f),
              f.map fun (kv : String × Bson) => param_render kv.2)
    | none => ("", [])
  let withOrder := base ++ whereSql ++ (" ORDER BY id")
  let withSkip :=
    match skip with
    | some n => withOrder ++ (" OFFSET ") ++ toString n
    | none => withOrder
  let withLimit :=
    match limit with
    | some n => withSkip ++ (" LIMIT ") ++ toString n
    | none => withSkip
  (withLimit, params)

/-! ## DocumentDB server write handlers (`src/documentdb_server.rs`) -/

/-- Value rendering in `handle_insert_command`: literals are formatted
straight into the SQL text (ints bare; strings quoted with `'`
doubling; null as NULL; everything else via `Display`, quoted). -/
def insertRender (v : Bson) : String :=
  match v with
  | Bson.int32 i => toString i
  | Bson.int64 i => toString i
  | Bson.str s => quoteStr s
  | Bson.null => ("NULL")
  | other => quoteStr (bsonToString other)

/-- The column list of `handle_insert_command`: every field of the
document except `_id`, which is skipped. -/
def insert_fields (doc : Doc) : List String :=
  (doc.filter fun kv => ¬ (kv.1 = "_id")).map (·.1)

/-- The value list of `handle_insert_command`, aligned with
`insert_fields`. -/
def insert_values (doc : Doc) : List String :=
  (doc.filter fun kv => ¬ (kv.1 = "_id")).map fun kv => insertRender kv.2

/-- The INSERT statement `handle_insert_command` builds for one
document (values spliced into the text, not parameterized). -/
def insert_sql (collection : String) (doc : Doc) : String :=
  ("INSERT INTO ") ++ collection ++ (" (") ++
    String.intercalate (", ") (insert_fields doc) ++ (") VALUES (") ++
    String.intercalate (", ") (insert_values doc) ++ (")")

/-- Value rendering in the WHERE clauses of `handle_update_command` and
`handle_delete_command` (no dedicated null arm in the source). -/
def whereRender (v : Bson) : String :=
  match v with
  | Bson.int32 i => toString i
  | Bson.int64 i => toString i
  | Bson.str s => quoteStr s
  | other => quoteStr (bsonToString other)

/-- The WHERE clause built from an equality filter document by
`handle_update_command`/`handle_delete_command`. -/
def where_clause (query : Doc) : String :=
  String.intercalate (" AND ")
    (query.map fun kv => kv.1 ++ (" = ") ++ whereRender kv.2)

/-- Does the key name a MongoDB operator (`key.starts_with('$')`)? -/
def startsDollar (s : String) : Bool :=
  match s.toList with
  | c :: _ => c = Char.ofNat 36
  | [] => false

/-- Value rendering in the SET clause of `handle_update_command`. -/
def setRender (v : Bson) : String :=
  match v with
  | Bson.int32 i => toString i
  | Bson.int64 i => toString i
  | Bson.str s => quoteStr s
  | Bson.null => ("NULL")
  | other => quoteStr (bsonToString other)

/-- The SET-clause pieces built by `handle_update_command` from the
update document: `$set` lowers to `field = value` assignments, `$unset`
to `field = NULL`, any other `$…` operator is logged and dropped, and
bare fields lower to direct assignments. -/
def set_pieces (update_data : Doc) : List String :=
  update_data.flatMap fun (kv : String × Bson) =>
    if startsDollar kv.1 then
      if kv.1 = "$set" then
        match kv.2 with
        | Bson.doc sd => sd.map fun skv => skv.1 ++ (" = ") ++ setRender skv.2
        | _ => []
      else if kv.1 = "$unset" then
        match kv.2 with
        | Bson.doc ud => ud.map fun ukv => ukv.1 ++ (" = NULL")
        | _ => []
      else []
    else [kv.1 ++ (" = ") ++ setRender kv.2]

/-- The SET clause of `handle_update_command`. -/
def set_clause (update_data : Doc) : String :=
  String.intercalate (", ") (set_pieces update_data)

/-- The UPDATE statement `handle_update_command` builds for one
`{q, u}` entry. -/
def update_sql (collection : String) (q u : Doc) : String :=
  ("UPDATE ") ++ collection ++ (" SET ") ++ set_clause u ++
    (" WHERE ") ++ where_clause q

/-! ## Document update merge (`src/database.rs`) -/

/-- `DatabaseManager::update_document`'s in-memory merge: every
top-level `(key, value)` pair of the update document is inserted into
the stored document verbatim (`doc.insert(key, value)`), operator keys
included. -/
def apply_update (doc update : Doc) : Doc :=
  update.foldl (fun d kv => docInsert d kv.1 kv.2) doc

/-! ## Aggregation filter evaluation (`src/aggregation.rs`) -/

/-- `AggregationEngine::compare_values`: numeric comparison after
widening both operands (exact on the integral numerics modelled here);
non-numeric operands compare as `false`. -/
def compare_values (a b : Bson) (cmp : Int → Int → Bool) : Bool :=
  match a, b with
  | Bson.int32 x, Bson.int32 y => cmp x y
  | Bson.int32 x, Bson.int64 y => cmp x y
  | Bson.int32 x, Bson.double y => cmp x y
  | Bson.int64 x, Bson.int32 y => cmp x y
  | Bson.int64 x, Bson.int64 y => cmp x y
  | Bson.int64 x, Bson.double y => cmp x y
  | Bson.double x, Bson.int32 y => cmp x y
  | Bson.double x, Bson.int64 y => cmp x y
  | Bson.double x, Bson.double y => cmp x y
  | _, _ => false

/-- `AggregationEngine::evaluate_field_condition`: fold over the
operator document; recognized operators can veto the match, and any
unrecognized operator is skipped (`// Unknown operator, skip for now`). -/
def evaluate_field_condition (fv : Bson) : Doc → Except String Bool
  | [] => .ok true
  | (op, v) :: rest =>
      if op = "$eq" then
        if bsonBeq fv v then evaluate_field_condition fv rest else .ok false
      else if op = "$ne" then
        if bsonBeq fv v then .ok false else evaluate_field_condition fv rest
      else if op = "$gt" then
        if compare_values fv v (fun a b => b < a) then
          evaluate_field_condition fv rest
        else .ok false
      else if op = "$gte" then
        if compare_values fv v (fun a b => b ≤ a) then
          evaluate_field_condition fv rest
        else .ok false
      else if op = "$lt" then
        if compare_values fv v (fun a b => a < b) then
          evaluate_field_condition fv rest
        else .ok false
      else if op = "$lte" then
        if compare_values fv v (fun a b => a ≤ b) then
          evaluate_field_condition fv rest
        else .ok false
      else if op = "$in" then
        match v with
        | Bson.arr xs =>
            if xs.any (bsonBeq fv) then evaluate_field_condition fv rest
            else .ok false
        | _ => evaluate_field_condition fv rest
      else if op = "$nin" then
        match v with
        | Bson.arr xs =>
            if xs.any (bsonBeq fv) then .ok false
            else evaluate_field_condition fv rest
        | _ => evaluate_field_condition fv rest
      else evaluate_field_condition fv rest

/-! ## Circuit breaker (`src/circuit_breaker.rs`) -/

inductive CState where
  | Closed
  | Open
  | HalfOpen
  deriving DecidableEq

/-- The thresholds of `CircuitBreakerConfig` that drive the state
machine (the two `Duration` fields govern real time and are abstracted
by the `past_next_attempt` argument of `update_state`). -/
structure CBConfig where
  failure_threshold : Nat
  success_threshold : Nat
  volume_threshold : Nat

/-- The counter part of `CircuitBreakerState` (the three `Instant`
timestamps are abstracted away). -/
structure CBState where
  state : CState
  failure_count : Nat
  success_count : Nat
  request_count : Nat
  deriving DecidableEq

/-- `CircuitBreakerState::new`. -/
def CBState.new : CBState :=
  ⟨CState.Closed, 0, 0, 0⟩

/-- `CircuitBreakerState::reset`: zero every counter and return to
Closed. -/
def CBState.reset (_s : CBState) : CBState :=
  ⟨CState.Closed, 0, 0, 0⟩

/-- `CircuitBreaker::should_open_circuit`. -/
def should_open_circuit (cfg : CBConfig) (s : CBState) : Bool :=
  cfg.volume_threshold ≤ s.request_count ∧ cfg.failure_threshold ≤ s.failure_count

/-- `CircuitBreaker::should_close_circuit`. -/
def should_close_circuit (cfg : CBConfig) (s : CBState) : Bool :=
  cfg.success_threshold ≤ s.success_count

/-- `CircuitBreaker::on_success_simple` (timestamps elided). -/
def on_success_simple (s : CBState) : CBState :=
  { s with
    success_count := s.success_count + 1
    failure_count := if s.state = CState.HalfOpen then 0 else s.failure_count }

/-- `CircuitBreaker::on_failure_simple` (timestamps elided). -/
def on_failure_simple (s : CBState) : CBState :=
  { s with
    failure_count := s.failure_count + 1
    success_count := if s.state = CState.HalfOpen then 0 else s.success_count }

/-- `CircuitBreaker::open_circuit_simple` (`next_attempt_time` elided). -/
def open_circuit_simple (s : CBState) : CBState :=
  { s with state := CState.Open }

/-- `CircuitBreaker::close_circuit_simple`. -/
def close_circuit_simple (s : CBState) : CBState :=
  s.reset

/-- `CircuitBreaker::update_state`, one guarded call's worth of counter
and state updates; `past_next_attempt` stands for the clock comparison
`Instant::now() >= next_attempt_time` in the Open branch. -/
def update_state (cfg : CBConfig) (s : CBState) (success : Bool)
    (past_next_attempt : Bool) : CBState :=
  let s := { s with request_count := s.request_count + 1 }
  match s.state with
  | CState.Closed =>
      if success then on_success_simple s
      else
        let s := on_failure_simple s
        if should_open_circuit cfg s then open_circuit_simple s else s
  | CState.Open =>
      if past_next_attempt then
        { s with state := CState.HalfOpen, success_count := 0, failure_count := 0 }
      else s
  | CState.HalfOpen =>
      if success then
        let s := on_success_simple s
        if should_close_circuit cfg s then close_circuit_simple s else s
      else open_circuit_simple (on_failure_simple s)

/-! ## Token bucket (`src/rate_limiter.rs`) -/

/-- `TokenBucket`: the two `u32` counters (the `Instant` and the float
refill rate only determine how many tokens a refill adds, abstracted as
the `tokens_to_add` argument below). -/
structure TokenBucket where
  capacity : Nat
  tokens : Nat

/-- `TokenBucket::new(capacity, refill_rate)`: starts full. -/
def TokenBucket.new (capacity : Nat) : TokenBucket :=
  ⟨capacity, capacity⟩

/-- `TokenBucket::refill`: add the elapsed-time token grant — the
computed `tokens_to_add` value — capping at `capacity` (`u32` addition
wraps modulo `2^32`). -/
def TokenBucket.refill (b : TokenBucket) (tokens_to_add : Nat) : TokenBucket :=
  if 0 < tokens_to_add then
    { b with tokens := min ((b.tokens + tokens_to_add) % 4294967296) b.capacity }
  else b

/-- `TokenBucket::try_consume`: refill, then consume if enough tokens
remain. -/
def TokenBucket.try_consume (b : TokenBucket) (tokens : Nat)
    (tokens_to_add : Nat) : Bool × TokenBucket :=
  let b' := b.refill tokens_to_add
  if tokens ≤ b'.tokens then (true, { b' with tokens := b'.tokens - tokens })
  else (false, b')

/-- The bucket-mutating operations a caller can perform
(`tokens_available` also just refills, so it is covered by `refill`). -/
inductive BucketOp where
  | refill (tokens_to_add : Nat)
  | tryConsume (tokens tokens_to_add : Nat)

/-- Run a sequence of bucket operations. -/
def runOps (b : TokenBucket) : List BucketOp → TokenBucket
  | [] => b
  | op :: rest =>
      runOps
        (match op with
         | BucketOp.refill n => b.refill n
         | BucketOp.tryConsume k n => (b.try_consume k n).2)
        rest

/-! ## Concrete frames and runs used by the theorems below -/

/-- The serialized BSON bytes of `{ping: 1}` (13 bytes: length prefix,
one int32 element named `ping`, terminator). -/
def pingBytes : List Nat :=
  [13, 0, 0, 0, 16, 112, 105, 110, 103, 0, 1, 0, 0, 0, 0]

/-- An `OP_MSG` ping request frame with `requestID = 42` and
`responseTo = 0`. -/
def pingRequest : List Nat :=
  u32le 34 ++ u32le 42 ++ u32le 0 ++ u32le 2013 ++ u32le 0 ++ [0] ++ pingBytes

/-- A buffer whose framing is sound (declared length 7, trailing zero)
but whose single element carries the invalid type tag `0xEE`. -/
def badTagBuffer : List Nat :=
  [7, 0, 0, 0, 238, 0, 0]

/-- An `OP_MSG` frame of 32 bytes holding two kind-0 body sections,
each an empty document. -/
def twoSectionMsg : List Nat :=
  u32le 32 ++ u32le 7 ++ u32le 0 ++ u32le 2013 ++ u32le 0 ++
    [0] ++ [5, 0, 0, 0, 0] ++ [0] ++ [5, 0, 0, 0, 0]

/-- A breaker configuration with `failure_threshold = 1`,
`success_threshold = 3`, `volume_threshold = 2`. -/
def cbCfgEx : CBConfig :=
  ⟨1, 3, 2⟩

/-- State after one failed call on a fresh breaker under `cbCfgEx`. -/
def cbRun1 : CBState :=
  update_state cbCfgEx CBState.new false false

/-- State after a failed call and then a successful call under
`cbCfgEx`. -/
def cbRun2 : CBState :=
  update_state cbCfgEx cbRun1 true false

/-! ## Helper lemmas -/

/-- Inserting at the same key twice keeps only the second value. -/
theorem docInsert_docInsert_same (d : Doc) (k : String) (v w : Bson) :
    docInsert (docInsert d k v) k w = docInsert d k w := by
  induction d with
  | nil => simp [docInsert]
  | cons kv rest ih =>
      obtain ⟨k', v'⟩ := kv
      by_cases h : k' = k <;> simp [docInsert, h, ih]

/-- `wherePartsAux` looks only at the filter's keys. -/
theorem wherePartsAux_keys (f g : Doc) (h : f.map Prod.fst = g.map Prod.fst) :
    ∀ n, wherePartsAux n f = wherePartsAux n g := by
  induction f generalizing g with
  | nil =>
      cases g with
      | nil => intro n; rfl
      | cons kv rest => simp at h
  | cons kv rest ih =>
      cases g with
      | nil => simp at h
      | cons kv' rest' =>
          obtain ⟨k, v⟩ := kv
          obtain ⟨k', v'⟩ := kv'
          simp only [List.map_cons, List.cons.injEq] at h
          intro n
          simp only [wherePartsAux, h.1, ih rest' h.2 (n + 1)]

/-- One guarded call from Closed that succeeds: counters bump, state
stays Closed. -/
theorem update_state_closed_success (cfg : CBConfig) (f sc r : Nat) (p : Bool) :
    update_state cfg ⟨CState.Closed, f, sc, r⟩ true p =
      ⟨CState.Closed, f, sc + 1, r + 1⟩ := rfl

/-- One guarded call from Closed that fails: counters bump, then the
breaker opens exactly when `should_open_circuit` fires. -/
theorem update_state_closed_failure (cfg : CBConfig) (f sc r : Nat) (p : Bool) :
    update_state cfg ⟨CState.Closed, f, sc, r⟩ false p =
      if should_open_circuit cfg ⟨CState.Closed, f + 1, sc, r + 1⟩ then
        ⟨CState.Open, f + 1, sc, r + 1⟩
      else ⟨CState.Closed, f + 1, sc, r + 1⟩ := rfl

/-- One call observed while Open: move to Half-Open once the sleep
window has elapsed, else stay Open. -/
theorem update_state_open (cfg : CBConfig) (f sc r : Nat) (b p : Bool) :
    update_state cfg ⟨CState.Open, f, sc, r⟩ b p =
      if p then ⟨CState.HalfOpen, 0, 0, r + 1⟩
      else ⟨CState.Open, f, sc, r + 1⟩ := rfl

/-- A successful probe in Half-Open: close (resetting) once
`should_close_circuit` fires, else keep probing. -/
theorem update_state_halfopen_success (cfg : CBConfig) (f sc r : Nat) (p : Bool) :
    update_state cfg ⟨CState.HalfOpen, f, sc, r⟩ true p =
      if should_close_circuit cfg ⟨CState.HalfOpen, 0, sc + 1, r + 1⟩ then
        CBState.new
      else ⟨CState.HalfOpen, 0, sc + 1, r + 1⟩ := rfl

/-- A failed probe in Half-Open: straight back to Open. -/
theorem update_state_halfopen_failure (cfg : CBConfig) (f sc r : Nat) (p : Bool) :
    update_state cfg ⟨CState.HalfOpen, f, sc, r⟩ false p =
      ⟨CState.Open, f + 1, 0, r + 1⟩ := rfl

/-- A bucket whose token count respects its capacity keeps respecting
it, with the capacity unchanged, across any operation sequence. -/
theorem runOps_invariant (ops : List BucketOp) :
    ∀ b : TokenBucket, b.tokens ≤ b.capacity →
      (runOps b ops).tokens ≤ (runOps b ops).capacity ∧
        (runOps b ops).capacity = b.capacity := by
  induction ops with
  | nil => intro b hb; exact ⟨hb, rfl⟩
  | cons op rest ih =>
      intro b hb
      cases op with
      | refill n =>
          have hb' : (b.refill n).tokens ≤ (b.refill n).capacity ∧
              (b.refill n).capacity = b.capacity := by
            unfold TokenBucket.refill
            split
            · exact ⟨Nat.min_le_right _ _, rfl⟩
            · exact ⟨hb, rfl⟩
          have := ih (b.refill n) hb'.1
          simpa [runOps, hb'.2] using this
      | tryConsume k n =>
          have hb' : ((b.try_consume k n).2).tokens ≤ ((b.try_consume k n).2).capacity ∧
              ((b.try_consume k n).2).capacity = b.capacity := by
            have hr : (b.refill n).tokens ≤ (b.refill n).capacity ∧
                (b.refill n).capacity = b.capacity := by
              unfold TokenBucket.refill
              split
              · exact ⟨Nat.min_le_right _ _, rfl⟩
              · exact ⟨hb, rfl⟩
            simp only [TokenBucket.try_consume]
            split
            · exact ⟨Nat.le_trans (Nat.sub_le _ _) hr.1, hr.2⟩
            · exact hr
          have := ih ((b.try_consume k n).2) hb'.1
          simpa [runOps, hb'.2] using this

/-! ## Claim theorems -/

/-- Claim C10 (confirmed): in every reachable state of a token bucket,
`tokens ≤ capacity` — construction starts the bucket at capacity,
refill caps at capacity, and `try_consume` only decreases the count, so
no operation sequence pushes tokens above capacity. -/
theorem c10_tokens_le_capacity_invariant (capacity : Nat) (ops : List BucketOp) :
    (TokenBucket.new capacity).tokens = capacity ∧
      (runOps (TokenBucket.new capacity) ops).capacity = capacity ∧
      (runOps (TokenBucket.new capacity) ops).tokens ≤
        (runOps (TokenBucket.new capacity) ops).capacity := by
  have h := runOps_invariant ops (TokenBucket.new capacity) (Nat.le_refl _)
  exact ⟨rfl, h.2, h.1⟩

/-- Claim C1 (code_bug): the emitted response frame does not carry
`responseTo = requestID` of the request.  For the ping request with
`requestID = 42` and `responseTo = 0`, `DocumentDBServer::parse_message`
yields those header fields, and the frame built by `create_response`
(as its callers invoke it, with the request's own `request_id` and
`response_to`) carries `42` in the requestID slot (offset 4) and `0` —
not `42` — in the responseTo slot (offset 8);
`WireProtocolHandler::build_msg_response` likewise hard-codes `0`
there. -/
theorem c1_response_to_not_request_id :
    server_parse_message pingRequest =
      .ok ⟨42, 0, 2013, u32le 0 ++ [0] ++ pingBytes⟩ ∧
    readU32 (create_response 42 0 pingBytes) 4 = 42 ∧
    readU32 (create_response 42 0 pingBytes) 8 = 0 ∧
    readU32 (build_msg_response 42 pingBytes) 8 = 0 := by
  refine ⟨rfl, rfl, rfl, rfl⟩

/-- Claim C4 counterexample: `xyzzyCommand` matches no registered
handler, yet `handle_command` answers with a document holding only
`ok: 0.0` and `errmsg` — there is no `code: 59` field — and the
documentdb server's fallback for unhandled commands answers `ok: 1.0`. -/
theorem c4_unknown_command_counterexample :
    registered_commands.contains "xyzzyCommand" = false ∧
    handle_command (fun _ _ => .ok []) "xyzzyCommand" [] =
      .ok (build_error_response ("Unknown command: xyzzyCommand")) ∧
    lookupField (build_error_response ("Unknown command: xyzzyCommand")) "code" = none ∧
    lookupField (build_error_response ("Unknown command: xyzzyCommand")) "ok" =
      some (Bson.double 0) ∧
    lookupField handle_generic_command_doc "ok" = some (Bson.double 1) := by
  refine ⟨by decide, ?_, rfl, rfl, rfl⟩
  rfl

/-- Claim C4 (corrected): a command name matching no registered handler
produces the successful result `Ok(build_error_response …)` — a
document with `ok: 0.0` and an `errmsg` but no `code` field (so no
`code: 59`), leaving the connection open; the documentdb server's
generic fallback instead answers `ok: 1.0`. -/
theorem c4_unknown_command_response_shape
    (handler : String → Doc → Except String Doc) (c : String) (d : Doc)
    (h : registered_commands.contains c = false) :
    handle_command handler c d =
      .ok (build_error_response (("Unknown command: ") ++ c)) ∧
    lookupField (build_error_response (("Unknown command: ") ++ c)) "ok" =
      some (Bson.double 0) ∧
    lookupField (build_error_response (("Unknown command: ") ++ c)) "code" = none ∧
    lookupField handle_generic_command_doc "ok" = some (Bson.double 1) := by
  refine ⟨?_, rfl, rfl, rfl⟩
  unfold handle_command
  rw [h]
  simp

/-- Claim C4 witness: the corrected statement instantiated at the
unregistered command name `definitelyNotACommand`. -/
theorem c4_unknown_command_response_shape_witness :
    handle_command (fun _ _ => .ok []) "definitelyNotACommand" [] =
      .ok (build_error_response (("Unknown command: ") ++ "definitelyNotACommand")) ∧
    lookupField (build_error_response (("Unknown command: ") ++ "definitelyNotACommand")) "ok" =
      some (Bson.double 0) ∧
    lookupField (build_error_response (("Unknown command: ") ++ "definitelyNotACommand")) "code" =
      none ∧
    lookupField handle_generic_command_doc "ok" = some (Bson.double 1) :=
  c4_unknown_command_response_shape (fun _ _ => .ok []) "definitelyNotACommand" []
    (by decide)

/-- Claim C5 counterexample: inserting `{name: "A"}` — a document with
no `_id` — stores it unchanged (no `_id` is generated) and returns the
relational row id as the result; and the documentdb server's insert
drops `_id` from the column list when it is present. -/
theorem c5_no_id_generated_counterexample :
    lookupField (insert_document "db" "users" [("name", Bson.str "A")] 7).storedDoc
      "_id" = none ∧
    (insert_document "db" "users" [("name", Bson.str "A")] 7).returned = "7" ∧
    insert_fields [("_id", Bson.int32 1), ("name", Bson.str "A")] = ["name"] := by
  refine ⟨rfl, rfl, rfl⟩

/-- Claim C5 (corrected): `insert_document` stores the document exactly
as given — a missing `_id` stays missing, no ObjectId is generated —
and returns the relational row id rendered as a string; the documentdb
server's insert handler never includes `_id` among the inserted
columns. -/
theorem c5_insert_stores_document_unchanged
    (db coll : String) (d : Doc) (rid : Int) :
    (insert_document db coll d rid).storedDoc = d ∧
    (insert_document db coll d rid).returned = toString rid ∧
    "_id" ∉ insert_fields d := by
  refine ⟨rfl, rfl, ?_⟩
  intro hmem
  simp only [insert_fields, List.mem_map, List.mem_filter] at hmem
  obtain ⟨kv, ⟨_, hne⟩, hk⟩ := hmem
  simp [hk] at hne

/-- Claim C6 counterexample: on the empty document, applying
`{$inc: {a: 1}}` twice through the `database.rs` merge yields a
different stored document than applying `{$inc: {a: 2}}` once (the
operator key is stored literally, so the values `{a: 1}` and `{a: 2}`
differ). -/
theorem c6_inc_twice_ne_inc_double_counterexample :
    apply_update (apply_update [] [("$inc", Bson.doc [("a", Bson.int32 1)])])
        [("$inc", Bson.doc [("a", Bson.int32 1)])] ≠
      apply_update [] [("$inc", Bson.doc [("a", Bson.int32 2)])] := by
  intro h
  have h2 := congrArg (fun d => lookupField d "$inc") h
  simp [apply_update, docInsert, lookupField] at h2

/-- Claim C6 (corrected): the `database.rs` update merge inserts the
update document's top-level pairs verbatim, so applying a single-key
update twice equals applying it once — this holds for `{$set: {f: v}}`
as claimed, and it holds for `{$inc: {f: n}}` as well, whose double
application therefore equals one application of `{$inc: {f: n}}`, not
of `{$inc: {f: 2n}}`. -/
theorem c6_single_key_update_idempotent (d : Doc) (f : String) (v : Bson) (n : Int) :
    apply_update (apply_update d [("$set", Bson.doc [(f, v)])])
        [("$set", Bson.doc [(f, v)])] =
      apply_update d [("$set", Bson.doc [(f, v)])] ∧
    apply_update (apply_update d [("$inc", Bson.doc [(f, Bson.int32 n)])])
        [("$inc", Bson.doc [(f, Bson.int32 n)])] =
      apply_update d [("$inc", Bson.doc [(f, Bson.int32 n)])] := by
  constructor <;>
    simpa [apply_update] using docInsert_docInsert_same d _ _ _

/-- Claim C7 counterexample: the unknown operator `$foo` does not fail
with `UnsupportedOperator` — `evaluate_field_condition` skips it and
reports a match — and the update handler's SET-clause builder drops the
unsupported `$inc` operator, producing no assignment at all. -/
theorem c7_unknown_operator_counterexample :
    evaluate_field_condition (Bson.int32 5) [("$foo", Bson.int32 1)] = .ok true ∧
    set_pieces [("$inc", Bson.doc [("a", Bson.int32 1)])] = [] := by
  refine ⟨rfl, rfl⟩

/-- Claim C7 (corrected): an operator key outside the supported set
`{$eq, $ne, $gt, $gte, $lt, $lte, $in, $nin}` is silently skipped by
`evaluate_field_condition` — the condition entry is dropped from the
predicate rather than failing with `UnsupportedOperator`. -/
theorem c7_unknown_operator_skipped (fv v : Bson) (op : String) (rest : Doc)
    (h1 : op ≠ "$eq") (h2 : op ≠ "$ne") (h3 : op ≠ "$gt") (h4 : op ≠ "$gte")
    (h5 : op ≠ "$lt") (h6 : op ≠ "$lte") (h7 : op ≠ "$in") (h8 : op ≠ "$nin") :
    evaluate_field_condition fv ((op, v) :: rest) =
      evaluate_field_condition fv rest := by
  simp only [evaluate_field_condition]
  rw [if_neg h1, if_neg h2, if_neg h3, if_neg h4, if_neg h5, if_neg h6,
    if_neg h7, if_neg h8]

/-- Claim C7 witness: the corrected statement instantiated at the
unknown operator `$foo`. -/
theorem c7_unknown_operator_skipped_witness :
    evaluate_field_condition (Bson.int32 5) [("$foo", Bson.int32 1)] =
      evaluate_field_condition (Bson.int32 5) [] :=
  c7_unknown_operator_skipped (Bson.int32 5) (Bson.int32 1) "$foo" []
    (by decide) (by decide) (by decide) (by decide)
    (by decide) (by decide) (by decide) (by decide)

/-- Claim C2 counterexample: `badTagBuffer` passes the framing checks
but its element has the invalid type tag `0xEE`, so content decoding
fails — yet `parse_bson_document` recovers it into the substitute
document `{ok: 1}` instead of returning an error. -/
theorem c2_malformed_body_recovered_counterexample :
    fromSlice badTagBuffer = none ∧
    parse_bson_flexible badTagBuffer = none ∧
    parse_bson_document badTagBuffer = .ok ([("ok", Bson.int32 1)], 7) := by
  refine ⟨rfl, rfl, rfl⟩

/-- Claim C2 (corrected): `parse_bson_document` is strict only about
framing — it succeeds exactly when the buffer is at least 4 bytes, the
declared length is in `[5, 16 MiB]` and within the buffer, and the
declared final byte is `0x00`.  Under those framing conditions it
always succeeds, even when the element content is malformed (unknown
type tag, bad string): content failures are recovered heuristically,
ultimately into the substitute document `{ok: 1}`. -/
theorem c2_framing_strict_content_recovered (data : List Nat) :
    (∃ d, parse_bson_document data = Except.ok (d, readU32 data 0)) ↔
      (4 ≤ data.length ∧ 5 ≤ readU32 data 0 ∧ readU32 data 0 ≤ data.length ∧
        readU32 data 0 ≤ 16777216 ∧ data.getD (readU32 data 0 - 1) 1 = 0) := by
  unfold parse_bson_document
  constructor
  · rintro ⟨d, h⟩
    split_ifs at h with h1 h2 h3 h4 h5 h6
    push_neg at h6
    exact ⟨by omega, by omega, by omega, by omega, h6⟩
  · rintro ⟨h1, h2, h3, h4, h5⟩
    have hne : ¬ data.isEmpty = true := by
      cases data with
      | nil => simp at h1
      | cons a l => simp
    rw [if_neg hne, if_neg (by omega : ¬ data.length < 4),
      if_neg (by omega : ¬ readU32 data 0 < 5),
      if_neg (by omega : ¬ data.length < readU32 data 0),
      if_neg (by omega : ¬ 16777216 < readU32 data 0),
      if_neg (by simpa using h5)]
    cases hfs : fromSlice (data.take (readU32 data 0)) with
    | some d => exact ⟨d, rfl⟩
    | none =>
        cases hfl : parse_bson_flexible (data.take (readU32 data 0)) with
        | some d => exact ⟨d, rfl⟩
        | none => exact ⟨[("ok", Bson.int32 1)], rfl⟩

/-- Claim C2 witness: the corrected statement applied to the well-formed
empty document `[5,0,0,0,0]`, whose framing conditions all hold. -/
theorem c2_framing_strict_content_recovered_witness :
    ∃ d, parse_bson_document [5, 0, 0, 0, 0] =
      Except.ok (d, readU32 [5, 0, 0, 0, 0] 0) :=
  (c2_framing_strict_content_recovered [5, 0, 0, 0, 0]).mpr
    ⟨by decide, by decide, by decide, by decide, by decide⟩

/-- Claim C3 counterexample: `twoSectionMsg` holds two kind-0 sections
per the spec's section layout, but `OpMsgMessage::parse` returns only
the first: the parse result carries a single (empty) document. -/
theorem c3_second_section_ignored_counterexample :
    count_sections_spec (twoSectionMsg.drop 20).length (twoSectionMsg.drop 20) =
      some 2 ∧
    opmsg_parse twoSectionMsg = .ok ⟨⟨32, 7, 0, 2013⟩, 0, [[]]⟩ ∧
    (⟨⟨32, 7, 0, 2013⟩, 0, [[]]⟩ : OpMsg).sections.length = 1 := by
  refine ⟨rfl, rfl, rfl⟩

/-- Claim C3 (corrected): `OpMsgMessage::parse` never yields more than
one section — it parses exactly the first body section when payload
bytes are present after the flags (a kind-1 first section is an error),
ignoring any remaining sections before `messageLength` is exhausted. -/
theorem c3_at_most_one_section_parsed (data : List Nat) (m : OpMsg)
    (h : opmsg_parse data = .ok m) :
    m.sections.length ≤ 1 ∧ (20 < data.length → m.sections.length = 1) := by
  unfold opmsg_parse at h
  cases hh : header_parse data with
  | error e => rw [hh] at h; cases h
  | ok hd =>
      rw [hh] at h
      dsimp only at h
      split_ifs at h with g1 g2 g3
      · rcases hb : parse_body_section (data.drop 20) with e | ⟨d, n⟩ <;>
          rw [hb] at h
        · cases h
        · cases h
          exact ⟨by simp, fun _ => by simp⟩
      · cases h
        exact ⟨by simp, fun hlen => absurd hlen g3⟩

/-- Claim C3 witness: the corrected statement instantiated at the
concrete two-section frame. -/
theorem c3_at_most_one_section_parsed_witness :
    (⟨⟨32, 7, 0, 2013⟩, 0, [[]]⟩ : OpMsg).sections.length ≤ 1 ∧
      (20 < twoSectionMsg.length →
        (⟨⟨32, 7, 0, 2013⟩, 0, [[]]⟩ : OpMsg).sections.length = 1) :=
  c3_at_most_one_section_parsed twoSectionMsg ⟨⟨32, 7, 0, 2013⟩, 0, [[]]⟩ rfl

/-- Claim C8 counterexample: under `cbCfgEx` (volume 2, failure 1), a
failed call then a successful call leave the breaker Closed although
`should_open_circuit`'s condition — `request_count ≥ volume_threshold`
and `failure_count ≥ failure_threshold` — holds of the resulting state:
the Closed→Open transition did not fire when the condition held,
because the condition is only consulted on failed calls. -/
theorem c8_guard_true_without_open_counterexample :
    cbRun1.state = CState.Closed ∧ cbRun2.state = CState.Closed ∧
    should_open_circuit cbCfgEx cbRun2 = true := by
  refine ⟨rfl, rfl, rfl⟩

/-- Claim C8 (corrected): from Closed, a guarded call moves the breaker
to Open iff the call failed and, after the call's counter updates,
`request_count ≥ volume_threshold ∧ failure_count ≥ failure_threshold`
(a successful call never opens the breaker); and every transition into
Closed from another state resets all counters — the resulting state is
exactly the fresh `⟨Closed, 0, 0, 0⟩`. -/
theorem c8_closed_open_guard_and_reset (cfg : CBConfig) (s : CBState) (p : Bool) :
    (s.state = CState.Closed →
      ((update_state cfg s false p).state = CState.Open ↔
        (cfg.volume_threshold ≤ s.request_count + 1 ∧
          cfg.failure_threshold ≤ s.failure_count + 1)) ∧
      (update_state cfg s true p).state = CState.Closed) ∧
    (∀ b : Bool, s.state ≠ CState.Closed →
      (update_state cfg s b p).state = CState.Closed →
      update_state cfg s b p = CBState.new) := by
  obtain ⟨st, f, sc, r⟩ := s
  cases st with
  | Closed =>
      refine ⟨fun _ => ⟨?_, ?_⟩, fun b hne => absurd rfl hne⟩
      · rw [update_state_closed_failure]
        by_cases hb : should_open_circuit cfg ⟨CState.Closed, f + 1, sc, r + 1⟩
        · rw [if_pos hb]
          simp only [should_open_circuit, decide_eq_true_eq] at hb
          simpa using hb
        · rw [if_neg hb]
          simp only [should_open_circuit, decide_eq_true_eq] at hb
          simpa using hb
      · rw [update_state_closed_success]
  | Open =>
      constructor
      · intro hcl
        exact absurd (show CState.Open = CState.Closed from hcl) (by decide)
      · intro b hne hcl
        rw [update_state_open] at hcl
        split_ifs at hcl
  | HalfOpen =>
      constructor
      · intro hcl
        exact absurd (show CState.HalfOpen = CState.Closed from hcl) (by decide)
      · intro b hne hcl
        cases b with
        | true =>
            rw [update_state_halfopen_success] at hcl ⊢
            split_ifs at hcl with hc
            rw [if_pos hc]
        | false =>
            rw [update_state_halfopen_failure] at hcl
            simp_all

/-- Claim C8 witness: the reset consequence applied to a Half-Open
state whose successful probe crosses `success_threshold`: the resulting
state is the fresh zero-counter Closed state. -/
theorem c8_closed_open_guard_and_reset_witness :
    update_state ⟨1, 3, 2⟩ ⟨CState.HalfOpen, 5, 2, 9⟩ true false = CBState.new :=
  (c8_closed_open_guard_and_reset ⟨1, 3, 2⟩ ⟨CState.HalfOpen, 5, 2, 9⟩ false).2
    true (by decide) (by decide)

/-- Claim C9 counterexample: two insert documents (and two `$set`
updates) of identical shape but different string literals produce
different SQL texts — the literals are spliced into the statement, not
passed as parameters. -/
theorem c9_literals_spliced_counterexample :
    insert_sql "users" [("a", Bson.str "x")] ≠
      insert_sql "users" [("a", Bson.str "y")] ∧
    update_sql "users" [("b", Bson.int32 1)]
        [("$set", Bson.doc [("a", Bson.str "x")])] ≠
      update_sql "users" [("b", Bson.int32 1)]
        [("$set", Bson.doc [("a", Bson.str "y")])] := by
  constructor <;> decide

/-- Claim C9 (corrected): `DocumentDBManager::find_documents` does pass
filter values as bound parameters — two filters with the same keys and
any values produce the identical SQL text (only `$n` placeholders and
the spliced key names appear in it) — whereas the documentdb server's
insert and update handlers splice literal values into the SQL string
(see the counterexample). -/
theorem c9_find_values_parameterized (db coll : String) (f g : Doc)
    (sk li : Option Nat) (h : f.map Prod.fst = g.map Prod.fst) :
    (find_query db coll (some f) sk li).1 =
      (find_query db coll (some g) sk li).1 := by
  have hw : whereParts f = whereParts g := wherePartsAux_keys f g h 1
  have hempty : f.isEmpty = g.isEmpty := by
    cases f <;> cases g <;> simp_all
  simp only [find_query, hw, hempty]
  by_cases hge : g.isEmpty = true <;> simp [hge]

/-- Claim C9 witness: the corrected statement instantiated at two
same-shape one-field filters with different string values. -/
theorem c9_find_values_parameterized_witness :
    (find_query "db" "users" (some [("a", Bson.str "x")]) none none).1 =
      (find_query "db" "users" (some [("a", Bson.str "y")]) none none).1 :=
  c9_find_values_parameterized "db" "users"
    [("a", Bson.str "x")] [("a", Bson.str "y")] none none rfl

end FauxDB
